import Mathlib

/-!
Verification of the progress-tracking core (and two peripheral calculations)
of `src/Ramadan_app.py`, a Tkinter "Quran companion" application.

The progress store is the Python dict `{"read_surahs": [<surah name>, ...]}`
held in `self.progress_data` and persisted to the JSON file
`self.progress_file` (`progress.json`).  The operations embedded here are:

* `QuranApp.load_progress`   (lines 232-241)
* `QuranApp.save_progress`   (lines 243-249)
* `QuranApp.mark_surah_read` (lines 364-372)
* `QuranApp.refresh_progress_list` (lines 550-553)
* `QuranApp.calculate_zakat` (lines 447-455)
* `moon_phase` (lines 118-127) and the phase-name lookup in
  `QuranApp.create_moon_tab` (lines 558-568)

File I/O is modelled by an explicit `FileState`; the Python `json` module's
dump/parse pair is abstracted as faithful (a well-formed backing file is
represented by the store value it parses to).  Python `float` arithmetic in
the zakat and moon-phase code is modelled over `ℚ`; at every value these
theorems evaluate, the binary floating-point computation produces the same
displayed result.
-/

/-- Embeds the in-memory progress dictionary `self.progress_data`,
which in the source is the Python dict `{"read_surahs": [...]}`:
a list of surah names in insertion order, with no other fields.
No timestamp of any kind is stored. -/
structure ProgressData where
  read_surahs : List String
deriving Repr, DecidableEq

/-- The store `{"read_surahs": []}` that `load_progress` returns when the
backing file is absent or unreadable. -/
def emptyProgress : ProgressData := ⟨[]⟩

/-- The user-visible outcome of `mark_surah_read`: the two
`messagebox.showinfo("Progress", ...)` calls in the source. -/
inductive MarkOutcome where
  /-- the message `Marked {name} as read.` -/
  | recorded (name : String)
  /-- the message `{name} already marked read.` -/
  | alreadyRead (name : String)
deriving Repr, DecidableEq

/-- Result of one `mark_surah_read` call: the store afterwards, the
info message shown (if any), and how many times `save_progress`
was invoked during the call. -/
structure MarkResult where
  store : ProgressData
  message : Option MarkOutcome
  saves : Nat
deriving Repr, DecidableEq

/-- Embeds `QuranApp.mark_surah_read` (src/Ramadan_app.py lines 364-372).
`surah_name` is `self.surah_var.get()`, `st` is `self.progress_data`.
The Python truthiness test `if surah_name:` is the test `surah_name ≠ ""`.
The `now` argument models the wall-clock time at the moment of the call;
the source never reads the clock in this method, so the body ignores it
(the store records bare labels, no timestamps). -/
def mark_surah_read (now surah_name : String) (st : ProgressData) : MarkResult :=
  if surah_name ≠ "" then
    if surah_name ∉ st.read_surahs then
      { store := ⟨st.read_surahs ++ [surah_name]⟩
        message := some (MarkOutcome.recorded surah_name)
        saves := 1 }
    else
      { store := st
        message := some (MarkOutcome.alreadyRead surah_name)
        saves := 0 }
  else
    { store := st, message := none, saves := 0 }

/-- State of the backing file `progress.json`.  `absent` means
`os.path.exists` is false; `present parsed` means the file exists and
`parsed` is the result of reading and `json.load`-ing it: `none` when the
read or parse raises (unreadable or corrupt content), `some d` when the
content parses to the store `d`. -/
inductive FileState where
  | absent
  | present (parsed : Option ProgressData)
deriving Repr, DecidableEq

/-- Embeds `QuranApp.load_progress` (src/Ramadan_app.py lines 232-241):
if the file exists, try to parse it, returning `{"read_surahs": []}` on
any exception; if it does not exist, return `{"read_surahs": []}`. -/
def load_progress : FileState → ProgressData
  | FileState.absent => ⟨[]⟩
  | FileState.present none => ⟨[]⟩
  | FileState.present (some d) => d

/-- Embeds `QuranApp.save_progress` (src/Ramadan_app.py lines 243-249).
`err` is the exception raised by the `open`/`json.dump` write, if any
(`none` means the write succeeds).  Returns the resulting file state and
the console lines printed by the `except` handler.  On success the file
holds exactly the serialized store (the `json` dump/parse round trip is
faithful for a dict of a string list); on failure the handler prints
`Save error: ...` and the exception does not escape. -/
def save_progress (err : Option String) (st : ProgressData) (fs : FileState) :
    FileState × List String :=
  match err with
  | none => (FileState.present (some st), [])
  | some e => (fs, ["Save error: " ++ e])

/-- Embeds `QuranApp.refresh_progress_list` (src/Ramadan_app.py lines
550-553): the listbox is cleared and refilled with `read_surahs` in list
order, so the displayed sequence is the stored list itself. -/
def refresh_progress_list (st : ProgressData) : List String :=
  st.read_surahs

/-- Outcome of `QuranApp.calculate_zakat`: either the result label text
set via `self.zakat_result.set`, or the `messagebox.showerror` text. -/
inductive ZakatOutcome where
  | result (text : String)
  | error (text : String)
deriving Repr, DecidableEq

/-- Renders a nonnegative rational with an integer number of cents the way
Python's `f"{x:.2f}"` renders the corresponding float: whole part, a dot,
and a two-digit fraction.  (At the inputs evaluated below, `100 * x` is an
exact integer, so no rounding mode is exercised.) -/
def formatMoney2 (x : ℚ) : String :=
  let c : ℤ := ⌊x * 100 + 1 / 2⌋
  let frac := (c % 100).toNat
  toString (c / 100) ++ "." ++ (if frac < 10 then "0" else "") ++ toString frac

/-- Embeds `QuranApp.calculate_zakat` (src/Ramadan_app.py lines 447-455):
`wealth < 0` raises `ValueError`, which the bare `except` converts to the
error dialog; otherwise `zakat = wealth * 0.025` and the result label is
set to `Zakat due: ${zakat:.2f}`.  Arithmetic is modelled over `ℚ`
(`0.025` as `25/1000`); the float computation agrees at the evaluated
inputs. -/
def calculate_zakat (wealth : ℚ) : ZakatOutcome :=
  if wealth < 0 then
    ZakatOutcome.error "Please enter a valid positive number."
  else
    ZakatOutcome.result ("Zakat due: $" ++ formatMoney2 (wealth * (25 / 1000)))

/-- The synodic month length `29.53058867` used by `moon_phase`. -/
def synodicMonth : ℚ := 2953058867 / 100000000

/-- Embeds `lunations = diff / 29.53058867` in `moon_phase`
(src/Ramadan_app.py lines 118-127), where `diff` is the signed number of
days from the reference new moon 2000-01-06 to the given date. -/
def lunations (diff : ℤ) : ℚ := (diff : ℚ) / synodicMonth

/-- Embeds `moon_phase` (src/Ramadan_app.py lines 118-127):
`phase = lunations - math.floor(lunations)`, parameterised by the day
difference `diff` to the reference new moon.  Real arithmetic modelled
over `ℚ`. -/
def moon_phase (diff : ℤ) : ℚ :=
  lunations diff - ⌊lunations diff⌋

/-- Python `int(...)`: truncation toward zero. -/
def int_py (x : ℚ) : ℤ := if x < 0 then ⌈x⌉ else ⌊x⌋

/-- The eight phase names in `QuranApp.create_moon_tab`
(src/Ramadan_app.py lines 558-568). -/
def phase_names : List String :=
  ["New Moon", "Waxing Crescent", "First Quarter", "Waxing Gibbous",
   "Full Moon", "Waning Gibbous", "Last Quarter", "Waning Crescent"]

/-- Embeds `idx = int(phase * 8) % 8` in `QuranApp.create_moon_tab`
(src/Ramadan_app.py line 566).  Python `%` with a positive modulus agrees
with `Int.emod`. -/
def moon_phase_index (diff : ℤ) : ℤ :=
  int_py (moon_phase diff * 8) % 8

/-- Embeds the lookup `phase_names[idx]` in `QuranApp.create_moon_tab`
(src/Ramadan_app.py line 567). -/
def create_moon_tab_phase_name (diff : ℤ) : Option String :=
  phase_names[(moon_phase_index diff).toNat]?

/-- C1: marking a (non-empty, per the recorder's input contract) label that
is already present in the store leaves the store unchanged — in particular
the number of entries for that label is unchanged, so a label present
exactly once stays present exactly once — and reports the
already-recorded outcome rather than raising an error. -/
theorem C1_mark_idempotent (now label : String) (st : ProgressData)
    (hne : label ≠ "") (hmem : label ∈ st.read_surahs) :
    (mark_surah_read now label st).store = st
    ∧ (mark_surah_read now label st).message
        = some (MarkOutcome.alreadyRead label)
    ∧ (mark_surah_read now label st).store.read_surahs.count label
        = st.read_surahs.count label := by
  simp [mark_surah_read, hne, hmem]

theorem C1_mark_idempotent_witness :
    ("Al-Fatiha" : String) ≠ ""
    ∧ "Al-Fatiha" ∈ (⟨["Al-Fatiha"]⟩ : ProgressData).read_surahs
    ∧ ((mark_surah_read "2025-03-01" "Al-Fatiha" ⟨["Al-Fatiha"]⟩).store
          = ⟨["Al-Fatiha"]⟩
       ∧ (mark_surah_read "2025-03-01" "Al-Fatiha" ⟨["Al-Fatiha"]⟩).message
          = some (MarkOutcome.alreadyRead "Al-Fatiha")
       ∧ (mark_surah_read "2025-03-01" "Al-Fatiha"
            ⟨["Al-Fatiha"]⟩).store.read_surahs.count "Al-Fatiha"
          = (⟨["Al-Fatiha"]⟩ : ProgressData).read_surahs.count "Al-Fatiha") :=
  ⟨by decide, by decide,
   C1_mark_idempotent "2025-03-01" "Al-Fatiha" ⟨["Al-Fatiha"]⟩
     (by decide) (by decide)⟩

/-- C2 (counterexample): the claim that `mark` records the current
timestamp in the store is false.  Marking the same fresh label at two
different moments produces identical stores (the store after marking is
the bare label list), so no reading of the store can map the label to the
timestamp of the marking. -/
theorem C2_counterexample :
    mark_surah_read "2025-03-01 03:00" "Al-Fatiha" emptyProgress
      = mark_surah_read "2026-07-01 12:34" "Al-Fatiha" emptyProgress
    ∧ (mark_surah_read "2025-03-01 03:00" "Al-Fatiha"
         emptyProgress).store.read_surahs = ["Al-Fatiha"]
    ∧ ¬ ∃ ts : ProgressData → String → Option String,
        ∀ (now label : String) (st : ProgressData),
          label ≠ "" → label ∉ st.read_surahs →
          ts (mark_surah_read now label st).store label = some now := by
  refine ⟨rfl, rfl, ?_⟩
  rintro ⟨ts, h⟩
  have h1 := h "2025-03-01 03:00" "Al-Fatiha" emptyProgress (by decide)
    (by simp [emptyProgress])
  have h2 := h "2026-07-01 12:34" "Al-Fatiha" emptyProgress (by decide)
    (by simp [emptyProgress])
  have hs : (mark_surah_read "2025-03-01 03:00" "Al-Fatiha"
      emptyProgress).store
      = (mark_surah_read "2026-07-01 12:34" "Al-Fatiha"
          emptyProgress).store := rfl
  rw [hs, h2] at h1
  exact absurd (Option.some.inj h1) (by decide)

/-- C2 (amended): for every non-empty label not yet in the store, `mark`
appends the bare label to the store's list and reports the recorded
outcome; no timestamp is stored — the result is independent of the
wall-clock time at the moment of marking. -/
theorem C2_mark_appends_label (now label : String) (st : ProgressData)
    (hne : label ≠ "") (hmem : label ∉ st.read_surahs) :
    (mark_surah_read now label st).store.read_surahs
        = st.read_surahs ++ [label]
    ∧ (mark_surah_read now label st).message
        = some (MarkOutcome.recorded label)
    ∧ ∀ now2 : String,
        mark_surah_read now2 label st = mark_surah_read now label st := by
  refine ⟨?_, ?_, fun now2 => rfl⟩ <;> simp [mark_surah_read, hne, hmem]

theorem C2_mark_appends_label_witness :
    ("Al-Ikhlas" : String) ≠ ""
    ∧ "Al-Ikhlas" ∉ (⟨["Al-Fatiha"]⟩ : ProgressData).read_surahs
    ∧ ((mark_surah_read "2025-03-01" "Al-Ikhlas"
          ⟨["Al-Fatiha"]⟩).store.read_surahs
          = ["Al-Fatiha"] ++ ["Al-Ikhlas"]
       ∧ (mark_surah_read "2025-03-01" "Al-Ikhlas" ⟨["Al-Fatiha"]⟩).message
          = some (MarkOutcome.recorded "Al-Ikhlas")
       ∧ ∀ now2 : String,
          mark_surah_read now2 "Al-Ikhlas" ⟨["Al-Fatiha"]⟩
            = mark_surah_read "2025-03-01" "Al-Ikhlas" ⟨["Al-Fatiha"]⟩) :=
  ⟨by decide, by decide,
   C2_mark_appends_label "2025-03-01" "Al-Ikhlas" ⟨["Al-Fatiha"]⟩
     (by decide) (by decide)⟩

/-- C3: whenever the backing file is absent, or present but unreadable or
unparsable, `load_progress` returns the empty store; no error reaches the
caller (the bare `except` in the source converts every exception to the
empty-store return). -/
theorem C3_load_fail_soft (fs : FileState)
    (h : fs = FileState.absent ∨ fs = FileState.present none) :
    load_progress fs = emptyProgress := by
  rcases h with h | h <;> subst h <;> rfl

theorem C3_load_fail_soft_witness :
    (FileState.absent = FileState.absent
       ∨ FileState.absent = FileState.present none)
    ∧ load_progress FileState.absent = emptyProgress :=
  ⟨Or.inl rfl, C3_load_fail_soft FileState.absent (Or.inl rfl)⟩

/-- C4: for every store and every prior file state, a successful
`save_progress` followed by `load_progress` reproduces exactly the
original store (hence the same set of entries). -/
theorem C4_save_load_roundtrip (st : ProgressData) (fs : FileState) :
    load_progress (save_progress none st fs).1 = st := rfl

/-- C5 (counterexample): the claim that every `mark` call performs exactly
one file write is false — marking a label that is already recorded
performs zero calls to `save_progress`. -/
theorem C5_counterexample :
    (mark_surah_read "2025-03-01" "Al-Fatiha" ⟨["Al-Fatiha"]⟩).saves = 0 := by
  decide

/-- C5 (amended): `mark` calls `save_progress` exactly once when the label
is non-empty and not yet recorded, and zero times otherwise (already
recorded, or empty label). -/
theorem C5_mark_save_count (now label : String) (st : ProgressData) :
    (mark_surah_read now label st).saves
      = if label ≠ "" ∧ label ∉ st.read_surahs then 1 else 0 := by
  by_cases h1 : label = "" <;> by_cases h2 : label ∈ st.read_surahs <;>
    simp [mark_surah_read, h1, h2]

/-- C6: concrete scenario from the spec.  Starting from the empty store,
marking "Al-Fatiha" yields the single-entry store and the recorded
outcome; marking "Al-Fatiha" again leaves that one entry and reports
already-recorded; marking "Al-Ikhlas" then yields exactly the two entries
in first-inserted-first order, which is also the order the progress
listbox displays. -/
theorem C6_concrete_scenario :
    (mark_surah_read "t1" "Al-Fatiha" emptyProgress).store.read_surahs
      = ["Al-Fatiha"]
    ∧ (mark_surah_read "t1" "Al-Fatiha" emptyProgress).message
      = some (MarkOutcome.recorded "Al-Fatiha")
    ∧ (mark_surah_read "t2" "Al-Fatiha"
        (mark_surah_read "t1" "Al-Fatiha" emptyProgress).store).store
      = (mark_surah_read "t1" "Al-Fatiha" emptyProgress).store
    ∧ (mark_surah_read "t2" "Al-Fatiha"
        (mark_surah_read "t1" "Al-Fatiha" emptyProgress).store).message
      = some (MarkOutcome.alreadyRead "Al-Fatiha")
    ∧ (mark_surah_read "t3" "Al-Ikhlas"
        (mark_surah_read "t2" "Al-Fatiha"
          (mark_surah_read "t1" "Al-Fatiha"
            emptyProgress).store).store).store.read_surahs
      = ["Al-Fatiha", "Al-Ikhlas"]
    ∧ refresh_progress_list
        (mark_surah_read "t3" "Al-Ikhlas"
          (mark_surah_read "t2" "Al-Fatiha"
            (mark_surah_read "t1" "Al-Fatiha"
              emptyProgress).store).store).store
      = ["Al-Fatiha", "Al-Ikhlas"] := by
  decide

/-- C7: the zakat calculation outputs `Zakat due: $250.00` for wealth
10000, `Zakat due: $0.00` for wealth 0, and rejects every negative input
with the error dialog before producing a result. -/
theorem C7_zakat (w : ℚ) (hneg : w < 0) :
    calculate_zakat 10000 = ZakatOutcome.result "Zakat due: $250.00"
    ∧ calculate_zakat 0 = ZakatOutcome.result "Zakat due: $0.00"
    ∧ calculate_zakat w
        = ZakatOutcome.error "Please enter a valid positive number." := by
  refine ⟨?_, ?_, ?_⟩
  · have h1 : ((10000 : ℚ) * (25 / 1000)) = 250 := by norm_num
    have h2 : (⌊(250 : ℚ) * 100 + 1 / 2⌋ : ℤ) = 25000 := by
      norm_num [Int.floor_eq_iff]
    unfold calculate_zakat formatMoney2
    rw [if_neg (by norm_num), h1, h2]
    decide
  · have h1 : ((0 : ℚ) * (25 / 1000)) = 0 := by norm_num
    have h2 : (⌊(0 : ℚ) * 100 + 1 / 2⌋ : ℤ) = 0 := by
      norm_num [Int.floor_eq_iff]
    unfold calculate_zakat formatMoney2
    rw [if_neg (by norm_num), h1, h2]
    decide
  · simp [calculate_zakat, hneg]

theorem C7_zakat_witness :
    ((-1 : ℚ) < 0)
    ∧ (calculate_zakat 10000 = ZakatOutcome.result "Zakat due: $250.00"
       ∧ calculate_zakat 0 = ZakatOutcome.result "Zakat due: $0.00"
       ∧ calculate_zakat (-1)
          = ZakatOutcome.error "Please enter a valid positive number.") :=
  ⟨by norm_num, C7_zakat (-1) (by norm_num)⟩

/-- C8: every exception raised during the backing-file write is caught by
`save_progress`: the call returns normally with the soft console warning
`Save error: ...` and nothing propagates to the caller or terminates the
process. -/
theorem C8_save_fail_soft (e : String) (st : ProgressData) (fs : FileState) :
    (save_progress (some e) st fs).2 = ["Save error: " ++ e] := rfl

/-- C9: invoking `mark` with an empty label (no surah selected) is a
complete no-op — the store is unchanged, `save_progress` is not called,
and no message is shown. -/
theorem C9_empty_label_noop (now : String) (st : ProgressData) :
    mark_surah_read now "" st
      = { store := st, message := none, saves := 0 } := rfl

/-- C10: for every date (every signed day-difference to the reference new
moon), `moon_phase` lies in the half-open interval `[0, 1)`, and the
phase-name index `int(phase * 8) % 8` lies in `0..7`, so the lookup into
the eight-element `phase_names` list is in bounds. -/
theorem C10_moon_phase_bounds (diff : ℤ) :
    0 ≤ moon_phase diff
    ∧ moon_phase diff < 1
    ∧ 0 ≤ moon_phase_index diff
    ∧ moon_phase_index diff < 8
    ∧ (moon_phase_index diff).toNat < phase_names.length
    ∧ (create_moon_tab_phase_name diff).isSome := by
  have hfract : moon_phase diff = Int.fract (lunations diff) := rfl
  have h0 : 0 ≤ moon_phase diff := by
    rw [hfract]; exact Int.fract_nonneg _
  have h1 : moon_phase diff < 1 := by
    rw [hfract]; exact Int.fract_lt_one _
  have hm0 : 0 ≤ moon_phase_index diff := by
    unfold moon_phase_index
    exact Int.emod_nonneg _ (by norm_num)
  have hm8 : moon_phase_index diff < 8 := by
    unfold moon_phase_index
    exact Int.emod_lt_of_pos _ (by norm_num)
  have hlen : (moon_phase_index diff).toNat < phase_names.length := by
    have : (moon_phase_index diff).toNat < 8 := by omega
    simpa [phase_names] using this
  refine ⟨h0, h1, hm0, hm8, hlen, ?_⟩
  unfold create_moon_tab_phase_name
  rw [List.getElem?_eq_getElem hlen]
  rfl
